import Mathlib

/-!
Shallow embedding of `src/tradingagents/agents/scout.py` (function `run_scan`).

Closing prices are modelled as rationals.  A download (`yf.download`) either
raises an exception (modelled as `none`, caught by the per-ticker
`except Exception` handler) or returns a data frame whose `Close` column is
a list of closes (`some s`, with `s = []` modelling an empty frame caught by
the `stock_data.empty` check).  The pandas expression
`stock_data['Close'].rolling(window=200).mean().values[-1]` yields NaN when
the series has fewer than 200 observations (`min_periods` defaults to the
window size), and a `>` comparison against NaN is false; we model that last
rolling value as an `Option ℚ` (`none` = NaN) and the comparison
accordingly.  The surrounding plumbing (the constituents CSV, the sectors
file and the console) is modelled by an explicit environment `ScoutEnv` and
an explicit message log.
-/

abbrev Ticker := String

abbrev PriceSeries := List ℚ

/-- Arithmetic mean of the most recent 200 observations of `s`, i.e. the
value in the last full rolling window of width 200. -/
def trailingAvg200 (s : PriceSeries) : ℚ :=
  (s.drop (s.length - 200)).sum / 200

/-- Models `stock_data['Close'].rolling(window=200).mean().values[-1]`
(line 72): `none` models the NaN produced when `s` has fewer than 200
observations. -/
def sma_200 (s : PriceSeries) : Option ℚ :=
  if s.length < 200 then none else some (trailingAvg200 s)

/-- Models `stock_data['Close'].values[-1]` (line 75), the last closing
price of the series. -/
def last_price (s : PriceSeries) : Option ℚ :=
  s.getLast?

/-- Models the screening comparison `last_price > sma_200` (line 78); any
comparison against NaN (`none`) is false. -/
def seriesBullish (s : PriceSeries) : Bool :=
  match last_price s, sma_200 s with
  | some lp, some m => decide (m < lp)
  | _, _ => false

/-- Models one iteration of the per-ticker loop body (lines 59-85): a
download that raises (`none`; the exception is caught at line 83) or an
empty frame (line 66) skips the ticker; otherwise the ticker is appended
exactly when the screening comparison holds. -/
def tickerBullish (fetch : Ticker → Option PriceSeries) (t : Ticker) : Bool :=
  match fetch t with
  | none => false
  | some s => if s.isEmpty then false else seriesBullish s

/-- Models the `for ticker in stock_pool` loop (lines 58-85): the returned
`bullish_stocks` accumulator. -/
def scanLoop (fetch : Ticker → Option PriceSeries) : List Ticker → List Ticker
  | [] => []
  | t :: ts =>
    if tickerBullish fetch t then t :: scanLoop fetch ts else scanLoop fetch ts

/-- Environment of `run_scan`: the constituents CSV as (Symbol, GICS Sector)
rows (`none` models a `FileNotFoundError` from `pd.read_csv`), the lines of
`config/sectors.txt` (`none` models `os.path.exists` returning false), and
the price feed. -/
structure ScoutEnv where
  constituents : Option (List (String × String))
  sectorsLines : Option (List String)
  fetch : Ticker → Option PriceSeries

/-- Models lines 31-34: the stripped, non-blank, non-comment lines of
`config/sectors.txt`, or `[]` when the file does not exist. -/
def selected_sectors (env : ScoutEnv) : List String :=
  match env.sectorsLines with
  | none => []
  | some ls =>
    (ls.filter (fun l => (l.trim != "") && !(l.startsWith "#"))).map
      (fun l => l.trim)

/-- Models lines 22-51: the stock pool, filtered by sector when any sector
is selected; `none` models the `FileNotFoundError` branch (lines 49-51). -/
def stock_pool (env : ScoutEnv) : Option (List Ticker) :=
  match env.constituents with
  | none => none
  | some df =>
    let sects := selected_sectors env
    if sects.isEmpty then some (df.map Prod.fst)
    else some ((df.filter (fun r => sects.contains r.2)).map Prod.fst)

/-- Console messages emitted while the stock pool is built (lines 38, 46,
50); these prints are unconditional, not gated by `verbose`. -/
def poolMsgs (env : ScoutEnv) : List String :=
  match env.constituents with
  | none => ["Error: A required data file was not found."]
  | some _ =>
    if (selected_sectors env).isEmpty then []
    else ["Filtering for sectors: " ++ String.intercalate ", " (selected_sectors env)]

/-- Console messages emitted for one ticker of the loop when `verbose`
(lines 61, 68, 81, 85). -/
def tickerMsgs (fetch : Ticker → Option PriceSeries) (verbose : Bool)
    (t : Ticker) : List String :=
  if verbose then
    ("  - Analyzing " ++ t ++ "...") ::
      (match fetch t with
        | none => ["    An error occurred while processing " ++ t]
        | some s =>
          if s.isEmpty then
            ["    Could not download data for " ++ t ++ ". Skipping."]
          else if seriesBullish s then
            ["    Bullish signal found for " ++ t ++ "!"]
          else [])
  else []

/-- The scan loop together with its console output. -/
def scanLoopV (fetch : Ticker → Option PriceSeries) (verbose : Bool) :
    List Ticker → List Ticker × List String
  | [] => ([], [])
  | t :: ts =>
    let rest := scanLoopV fetch verbose ts
    ((if tickerBullish fetch t then [t] else []) ++ rest.1,
      tickerMsgs fetch verbose t ++ rest.2)

/-- Full model of `run_scan` (lines 8-90): the returned list of bullish
tickers paired with the sequence of console messages. -/
def run_scanV (env : ScoutEnv) (verbose : Bool) : List Ticker × List String :=
  match stock_pool env with
  | none => ([], poolMsgs env)
  | some pool =>
    if pool.isEmpty then
      ([], poolMsgs env ++ ["Warning: No stocks found for the selected criteria."])
    else
      let scanned := scanLoopV env.fetch verbose pool
      (scanned.1,
        poolMsgs env
          ++ (if verbose then
                ["Scout is scanning " ++ toString pool.length ++ " stocks..."]
              else [])
          ++ scanned.2
          ++ (if verbose then ["Scout finished scanning."] else []))

/-- The value returned by `run_scan`. -/
def run_scan (env : ScoutEnv) (verbose : Bool) : List Ticker :=
  (run_scanV env verbose).1

/-- The scan loop instrumented with the list of tickers passed to
`yf.download`, in call order: `(bullish_stocks, downloaded tickers)`. -/
def scanLoopT (fetch : Ticker → Option PriceSeries) :
    List Ticker → List Ticker × List Ticker
  | [] => ([], [])
  | t :: ts =>
    let rest := scanLoopT fetch ts
    ((if tickerBullish fetch t then [t] else []) ++ rest.1, t :: rest.2)

/-- Models `run_scan` instrumented with the list of tickers passed to
`yf.download`: the early returns at lines 47 and 51 perform no download. -/
def run_scanT (env : ScoutEnv) : List Ticker × List Ticker :=
  match stock_pool env with
  | none => ([], [])
  | some pool => if pool.isEmpty then ([], []) else scanLoopT env.fetch pool

/-- The scan loop against a price feed that may answer differently on each
successive call: `n` counts the downloads performed so far, so repeated
invocations of the scan start at different counter values. -/
def scanLoopAt (fetch : Nat → Ticker → Option PriceSeries) :
    Nat → List Ticker → List Ticker
  | _, [] => []
  | n, t :: ts =>
    if tickerBullish (fetch n) t then t :: scanLoopAt fetch (n + 1) ts
    else scanLoopAt fetch (n + 1) ts

/-! ### General lemmas about the scan loop -/

theorem scanLoop_eq_filter (fetch : Ticker → Option PriceSeries)
    (l : List Ticker) : scanLoop fetch l = l.filter (tickerBullish fetch) := by
  induction l with
  | nil => rfl
  | cons t ts ih =>
    cases h : tickerBullish fetch t <;> simp [scanLoop, List.filter_cons, h, ih]

theorem scanLoopV_fst (fetch : Ticker → Option PriceSeries) (v : Bool)
    (l : List Ticker) : (scanLoopV fetch v l).1 = scanLoop fetch l := by
  induction l with
  | nil => rfl
  | cons t ts ih =>
    cases h : tickerBullish fetch t <;> simp [scanLoopV, scanLoop, h, ih]

theorem run_scan_eq_scanLoop (env : ScoutEnv) (v : Bool) (pool : List Ticker)
    (h : stock_pool env = some pool) :
    run_scan env v = scanLoop env.fetch pool := by
  unfold run_scan run_scanV
  rw [h]
  cases pool with
  | nil => rfl
  | cons t ts => simp [scanLoopV_fst]

theorem mem_scanLoop {fetch : Ticker → Option PriceSeries} {t : Ticker}
    {l : List Ticker} :
    t ∈ scanLoop fetch l ↔ t ∈ l ∧ tickerBullish fetch t = true := by
  rw [scanLoop_eq_filter, List.mem_filter]

theorem tickerBullish_none {fetch : Ticker → Option PriceSeries} {t : Ticker}
    (h : fetch t = none) : tickerBullish fetch t = false := by
  unfold tickerBullish
  rw [h]

theorem tickerBullish_some {fetch : Ticker → Option PriceSeries} {t : Ticker}
    {s : PriceSeries} (h : fetch t = some s) :
    tickerBullish fetch t = if s.isEmpty then false else seriesBullish s := by
  unfold tickerBullish
  rw [h]

theorem seriesBullish_short {s : PriceSeries} (h : s.length < 200) :
    seriesBullish s = false := by
  have hs : sma_200 s = none := by
    unfold sma_200
    rw [if_pos h]
  unfold seriesBullish
  rw [hs]
  cases last_price s <;> rfl

theorem seriesBullish_long {s : PriceSeries} {lp : ℚ}
    (h1 : s.getLast? = some lp) (h2 : 200 ≤ s.length) :
    seriesBullish s = decide (trailingAvg200 s < lp) := by
  have hs : sma_200 s = some (trailingAvg200 s) := by
    unfold sma_200
    rw [if_neg (by omega)]
  have h1' : last_price s = some lp := h1
  unfold seriesBullish
  rw [hs, h1']

theorem scanLoop_skips_of_not_bullish {fetch : Ticker → Option PriceSeries}
    {t : Ticker} (hb : tickerBullish fetch t = false)
    (pre post l : List Ticker) :
    t ∉ scanLoop fetch l ∧
      scanLoop fetch (pre ++ t :: post) =
        scanLoop fetch pre ++ scanLoop fetch post := by
  constructor
  · rw [mem_scanLoop]
    rintro ⟨-, hbt⟩
    rw [hb] at hbt
    exact Bool.false_ne_true hbt
  · rw [scanLoop_eq_filter, scanLoop_eq_filter, scanLoop_eq_filter,
      List.filter_append, List.filter_cons, hb]
    simp

theorem stock_pool_none {env : ScoutEnv} (h : env.constituents = none) :
    stock_pool env = none := by
  unfold stock_pool
  rw [h]

/-! ### Concrete instances used by the witnesses -/

def seriesC7 : PriceSeries := List.replicate 199 (100 : ℚ) ++ [150]

def envC7 : ScoutEnv :=
  { constituents := some [("A", "Information Technology")]
    sectorsLines := none
    fetch := fun t => if t = "A" then some seriesC7 else none }

theorem seriesC7_length : seriesC7.length = 200 := by
  rw [seriesC7, List.length_append, List.length_replicate]
  rfl

theorem seriesC7_last : seriesC7.getLast? = some 150 := by
  rw [seriesC7, List.getLast?_concat]

theorem seriesC7_isEmpty : seriesC7.isEmpty = false := by
  rw [List.isEmpty_eq_false]
  intro h0
  have h1 := seriesC7_length
  rw [h0] at h1
  simp at h1

theorem seriesC7_avg : trailingAvg200 seriesC7 = 100.25 := by
  rw [trailingAvg200, seriesC7_length, Nat.sub_self, List.drop_zero, seriesC7,
    List.sum_append, List.sum_replicate, nsmul_eq_mul]
  norm_num

theorem seriesC7_bullish : seriesBullish seriesC7 = true := by
  rw [seriesBullish_long seriesC7_last (by rw [seriesC7_length]), seriesC7_avg]
  norm_num

theorem stock_pool_envC7 : stock_pool envC7 = some ["A"] := rfl

/-! ### Claims -/

/-- Claim C1: for a ticker whose fetched series is non-empty and has at
least 200 observations, the ticker is in the returned list iff its last
closing price is strictly greater than the arithmetic mean of the most
recent 200 closes; in particular, a last close exactly equal to the
trailing average is excluded (the condition is a strict inequality). -/
theorem included_iff_last_close_above_sma (env : ScoutEnv) (v : Bool)
    (pool : List Ticker) (hpool : stock_pool env = some pool) (t : Ticker)
    (s : PriceSeries) (lp : ℚ) (hf : env.fetch t = some s)
    (hlen : 200 ≤ s.length) (hlast : s.getLast? = some lp) :
    t ∈ run_scan env v ↔ (t ∈ pool ∧ trailingAvg200 s < lp) := by
  have hne : s.isEmpty = false := by
    rw [List.isEmpty_eq_false]
    intro h0
    rw [h0] at hlen
    simp at hlen
  rw [run_scan_eq_scanLoop env v pool hpool, mem_scanLoop,
    tickerBullish_some hf, hne]
  simp [seriesBullish_long hlast hlen]

/-- Witness for `included_iff_last_close_above_sma` at the concrete
environment `envC7`, whose single ticker "A" has 199 closes at 100 followed
by one at 150. -/
theorem included_iff_last_close_above_sma_witness :
    ("A" ∈ run_scan envC7 true ↔
      ("A" ∈ ["A"] ∧ trailingAvg200 seriesC7 < 150)) :=
  included_iff_last_close_above_sma envC7 true ["A"] stock_pool_envC7 "A"
    seriesC7 150 rfl (by rw [seriesC7_length]) seriesC7_last

/-- Claim C2: a ticker whose download raises (caught by the per-ticker
handler) or returns an empty frame is absent from the returned list, and
the scan of all other tickers is unaffected; the model is a total function,
so no exception propagates out of the scan. -/
theorem failed_or_empty_fetch_skipped (fetch : Ticker → Option PriceSeries)
    (t : Ticker) (h : fetch t = none ∨ fetch t = some [])
    (pre post l : List Ticker) :
    t ∉ scanLoop fetch l ∧
      scanLoop fetch (pre ++ t :: post) =
        scanLoop fetch pre ++ scanLoop fetch post := by
  have hb : tickerBullish fetch t = false := by
    rcases h with h | h
    · exact tickerBullish_none h
    · rw [tickerBullish_some h]
      rfl
  exact scanLoop_skips_of_not_bullish hb pre post l

def fetchNone : Ticker → Option PriceSeries := fun _ => none

/-- Witness for `failed_or_empty_fetch_skipped`: every download fails, so
"B" is skipped and "A", "C" are still processed. -/
theorem failed_or_empty_fetch_skipped_witness :
    ("B" ∉ scanLoop fetchNone ["A", "B", "C"] ∧
      scanLoop fetchNone (["A"] ++ "B" :: ["C"]) =
        scanLoop fetchNone ["A"] ++ scanLoop fetchNone ["C"]) :=
  failed_or_empty_fetch_skipped fetchNone "B" (Or.inl rfl) ["A"] ["C"]
    ["A", "B", "C"]

/-- Claim C3: a ticker whose series is non-empty but has fewer than 200
observations is skipped (the last rolling value is NaN, so the comparison
is false): it is absent from the returned list and the remaining tickers
are still processed. -/
theorem short_series_skipped (fetch : Ticker → Option PriceSeries)
    (t : Ticker) (s : PriceSeries) (hf : fetch t = some s) (hne : s ≠ [])
    (hshort : s.length < 200) (pre post l : List Ticker) :
    t ∉ scanLoop fetch l ∧
      scanLoop fetch (pre ++ t :: post) =
        scanLoop fetch pre ++ scanLoop fetch post := by
  have hb : tickerBullish fetch t = false := by
    rw [tickerBullish_some hf, seriesBullish_short hshort]
    simp
  exact scanLoop_skips_of_not_bullish hb pre post l

def seriesShort : PriceSeries := List.replicate 5 (100 : ℚ)

def fetchShort : Ticker → Option PriceSeries := fun _ => some seriesShort

/-- Witness for `short_series_skipped`: every ticker has only 5
observations, so "B" is skipped and "A", "C" are still processed. -/
theorem short_series_skipped_witness :
    ("B" ∉ scanLoop fetchShort ["A", "B", "C"] ∧
      scanLoop fetchShort (["A"] ++ "B" :: ["C"]) =
        scanLoop fetchShort ["A"] ++ scanLoop fetchShort ["C"]) :=
  short_series_skipped fetchShort "B" seriesShort rfl
    (by simp [seriesShort]) (by simp [seriesShort]) ["A"] ["C"]
    ["A", "B", "C"]

/-- Claim C4: when the stock pool is empty, `run_scan` returns the empty
list (the early return at line 47), raises nothing (the model is total),
and performs no download at all. -/
theorem empty_pool_no_fetch (env : ScoutEnv) (v : Bool)
    (h : stock_pool env = some []) :
    run_scan env v = [] ∧ run_scanT env = ([], []) := by
  unfold run_scan run_scanV run_scanT
  rw [h]
  simp

def envEmptyPool : ScoutEnv :=
  { constituents := some []
    sectorsLines := none
    fetch := fun _ => none }

/-- Witness for `empty_pool_no_fetch` at an environment whose constituents
file holds no rows. -/
theorem empty_pool_no_fetch_witness :
    run_scan envEmptyPool true = [] ∧ run_scanT envEmptyPool = ([], []) :=
  empty_pool_no_fetch envEmptyPool true rfl

/-- Claim C6: the returned list preserves the encounter order of the pool
(it is a sublist of the input); concretely, when among ["A", "B", "C"] only
"B" qualifies, the result is exactly ["B"]. -/
theorem scan_preserves_order (fetch : Ticker → Option PriceSeries)
    (hA : tickerBullish fetch "A" = false)
    (hB : tickerBullish fetch "B" = true)
    (hC : tickerBullish fetch "C" = false) :
    scanLoop fetch ["A", "B", "C"] = ["B"] ∧
      ∀ l : List Ticker, (scanLoop fetch l).Sublist l := by
  constructor
  · simp [scanLoop, hA, hB, hC]
  · intro l
    rw [scanLoop_eq_filter]
    exact List.filter_sublist l

def fetchC6 : Ticker → Option PriceSeries :=
  fun t => if t = "B" then some seriesC7 else none

theorem fetchC6_B_bullish : tickerBullish fetchC6 "B" = true := by
  rw [tickerBullish_some (rfl : fetchC6 "B" = some seriesC7), seriesC7_isEmpty]
  simp [seriesC7_bullish]

/-- Witness for `scan_preserves_order`: only "B" downloads a qualifying
series. -/
theorem scan_preserves_order_witness :
    (scanLoop fetchC6 ["A", "B", "C"] = ["B"] ∧
      ∀ l : List Ticker, (scanLoop fetchC6 l).Sublist l) :=
  scan_preserves_order fetchC6 rfl fetchC6_B_bullish rfl

/-- Claim C7: for the concrete series of 199 closes at 100 followed by one
close at 150, the trailing 200-observation average is 100.25, the last
close 150 exceeds it, and the ticker is included in the result. -/
theorem concrete_series_included :
    trailingAvg200 seriesC7 = 100.25 ∧ last_price seriesC7 = some 150 ∧
      trailingAvg200 seriesC7 < 150 ∧ run_scan envC7 false = ["A"] := by
  refine ⟨seriesC7_avg, seriesC7_last, ?_, ?_⟩
  · rw [seriesC7_avg]
    norm_num
  · rw [run_scan_eq_scanLoop envC7 false ["A"] stock_pool_envC7]
    have hb : tickerBullish envC7.fetch "A" = true := by
      rw [tickerBullish_some (rfl : envC7.fetch "A" = some seriesC7),
        seriesC7_isEmpty]
      simp [seriesC7_bullish]
    simp [scanLoop, hb]

/-- Claim C8: the scan is deterministic: against a call-indexed price feed
that answers identically on repeated calls, the result is independent of
the starting call counter (so two back-to-back invocations agree) and
equals the pure scan over the feed. -/
theorem scan_deterministic (fetch : Nat → Ticker → Option PriceSeries)
    (pool : List Ticker) (h : ∀ n t, fetch n t = fetch 0 t) :
    (∀ a b, scanLoopAt fetch a pool = scanLoopAt fetch b pool) ∧
      scanLoopAt fetch 0 pool = scanLoop (fetch 0) pool := by
  have key : ∀ (l : List Ticker) (a : Nat),
      scanLoopAt fetch a l = scanLoop (fetch 0) l := by
    intro l
    induction l with
    | nil => intro a; rfl
    | cons t ts ih =>
      intro a
      have hb : tickerBullish (fetch a) t = tickerBullish (fetch 0) t := by
        unfold tickerBullish
        rw [h a t]
      simp only [scanLoopAt, scanLoop, hb, ih]
  exact ⟨fun a b => (key pool a).trans (key pool b).symm, key pool 0⟩

def fetchConst : Nat → Ticker → Option PriceSeries := fun _ _ => none

/-- Witness for `scan_deterministic` at a feed that is constant across
calls. -/
theorem scan_deterministic_witness :
    (∀ a b, scanLoopAt fetchConst a ["A"] = scanLoopAt fetchConst b ["A"]) ∧
      scanLoopAt fetchConst 0 ["A"] = scanLoop (fetchConst 0) ["A"] :=
  scan_deterministic fetchConst ["A"] (fun _ _ => rfl)

/-- Claim C9: the `verbose` flag is non-behavioral: the returned list of
the scan is the same with verbose on and off — the flag only changes the
console messages, which no branch of the scan reads — and `run_scan` is by
definition the first component of `run_scanV`. -/
theorem verbose_non_behavioral (env : ScoutEnv) :
    (run_scanV env true).1 = (run_scanV env false).1 ∧
      ∀ v, run_scan env v = (run_scanV env v).1 := by
  refine ⟨?_, fun v => rfl⟩
  unfold run_scanV
  cases hp : stock_pool env with
  | none => rfl
  | some pool =>
    cases pool with
    | nil => rfl
    | cons t ts => simp [scanLoopV_fst]

/-- Claim C10: a `FileNotFoundError` while reading the constituents CSV is
caught and `run_scan` returns the empty list rather than raising — the same
value returned by a scan in which no ticker qualifies. -/
theorem missing_file_empty_result (env : ScoutEnv) (v : Bool)
    (h : env.constituents = none) (env2 : ScoutEnv) (v2 : Bool)
    (pool2 : List Ticker) (h2 : stock_pool env2 = some pool2)
    (hnone : ∀ t ∈ pool2, tickerBullish env2.fetch t = false) :
    run_scan env v = [] ∧ run_scan env2 v2 = run_scan env v := by
  have h1 : run_scan env v = [] := by
    unfold run_scan run_scanV
    rw [stock_pool_none h]
  refine ⟨h1, ?_⟩
  rw [h1, run_scan_eq_scanLoop env2 v2 pool2 h2, scanLoop_eq_filter,
    List.filter_eq_nil_iff]
  intro a ha
  rw [hnone a ha]
  simp

def envNoFile : ScoutEnv :=
  { constituents := none
    sectorsLines := none
    fetch := fun _ => none }

def envAllFail : ScoutEnv :=
  { constituents := some [("A", "Energy")]
    sectorsLines := none
    fetch := fun _ => none }

/-- Witness for `missing_file_empty_result`: a missing CSV yields `[]`,
equal to the result over a pool whose single download fails. -/
theorem missing_file_empty_result_witness :
    run_scan envNoFile true = [] ∧
      run_scan envAllFail false = run_scan envNoFile true :=
  missing_file_empty_result envNoFile true rfl envAllFail false ["A"] rfl
    (fun _ _ => rfl)
